import Mathlib

/-!
Shallow embedding of the CardDAV discovery engine of
`src/contact-manager/src/domain/card_repositories/remote_card_repository.rs`.

The Rust code parses XML multistatus bodies with quick-xml's serde
deserializer into the structs `Multistatus<T>`, `Response<T>`, `Propstat<T>`,
`Href`, `Status`, `Ctag`, `Etag`, `LastModified` and the five property-payload
shapes, then resolves discovery URLs from the parsed values.  We embed the
XML body as an element tree and write one deserializer per struct mirroring
the serde-derive semantics used by the source: a struct field is read from
the child element of the same (kebab-case renamed) name, a missing required
field is an error, an `Option` field becomes `none` when absent, a `Vec`
field without a serde default attribute collects all children of that name
and is a missing-field error when no such child occurs at all, and a
`$value` field is the element's text content.
-/

/-- An XML element tree: named elements with children, or text content.
Namespace prefixes are abstracted away (names are local names, as the
serde rename attributes in the source spell them). -/
inductive Xml where
  | elem (name : String) (children : List Xml)
  | text (s : String)
deriving Repr

/-- Children of an element; text nodes have none. -/
def Xml.childrenOf : Xml → List Xml
  | .elem _ cs => cs
  | .text _ => []

/-- Whether a node is an element with the given name. -/
def Xml.isElemNamed (n : String) : Xml → Bool
  | .elem m _ => m == n
  | .text _ => false

/-- The first child element of a given name, as serde-derive looks a
struct field up by its (renamed) element name. -/
def findElem (n : String) (xs : List Xml) : Option Xml :=
  xs.find? (Xml.isElemNamed n)

/-- Text content of a node list: the serde `$value` of an element. -/
def textValue (xs : List Xml) : String :=
  String.join (xs.map fun x => match x with | .text s => s | .elem _ _ => "")

-- The parsed data model, field for field from the Rust structs.

/-- Rust `Href { value: String }` (line 54). -/
structure Href where
  value : String
deriving Repr, DecidableEq

/-- Rust `Status { value: String }` (line 60). -/
structure Status where
  value : String
deriving Repr, DecidableEq

/-- Rust `Ctag { value: String }` (line 66). -/
structure Ctag where
  value : String
deriving Repr, DecidableEq

/-- Rust `Etag { value: String }` (line 72). -/
structure Etag where
  value : String
deriving Repr, DecidableEq

/-- Rust `LastModified { value: DateTime<Utc> }` (line 78); the instant is
modelled as an integer timestamp. -/
structure LastModified where
  value : Int
deriving Repr, DecidableEq

/-- Rust `Propstat<T> { prop: T, status: Option<Status> }` (line 48). -/
structure Propstat (T : Type) where
  prop : T
  status : Option Status
deriving Repr, DecidableEq

/-- Rust `Response<T> { href: Href, propstat: Propstat<T> }` (line 42). -/
structure Response (T : Type) where
  href : Href
  propstat : Propstat T
deriving Repr, DecidableEq

/-- Rust `Multistatus<T> { responses: Vec<Response<T>> }` (line 36);
the field is renamed to the element name "response". -/
structure Multistatus (T : Type) where
  responses : List (Response T)
deriving Repr, DecidableEq

/-- Rust `CurrentUserPrincipal { href: Href }` (line 107). -/
structure CurrentUserPrincipal where
  href : Href
deriving Repr, DecidableEq

/-- Rust `CurrentUserPrincipalProp` (line 101), kebab-case renamed field
reading element "current-user-principal". -/
structure CurrentUserPrincipalProp where
  current_user_principal : CurrentUserPrincipal
deriving Repr, DecidableEq

/-- Rust `AddressbookHomeSet { href: Href }` (line 120). -/
structure AddressbookHomeSet where
  href : Href
deriving Repr, DecidableEq

/-- Rust `AddressbookHomeSetProp` (line 114), kebab-case renamed field
reading element "addressbook-home-set". -/
structure AddressbookHomeSetProp where
  addressbook_home_set : AddressbookHomeSet
deriving Repr, DecidableEq

/-- Rust `Addressbook {}` (line 138), the empty marker struct. -/
structure Addressbook where
deriving Repr, DecidableEq

/-- Rust `AddressbookResourceType { addressbook: Option<Addressbook> }`
(line 133). -/
structure AddressbookResourceType where
  addressbook : Option Addressbook
deriving Repr, DecidableEq

/-- Rust `AddressbookProp { resourcetype: AddressbookResourceType }`
(line 127). -/
structure AddressbookProp where
  resourcetype : AddressbookResourceType
deriving Repr, DecidableEq

/-- Rust `AddressData { value: String }` (line 151). -/
structure AddressData where
  value : String
deriving Repr, DecidableEq

/-- Rust `AddressDataProp` (line 143) with fields address-data, getetag,
getlastmodified. -/
structure AddressDataProp where
  address_data : AddressData
  getetag : Etag
  getlastmodified : LastModified
deriving Repr, DecidableEq

/-- Rust `CtagProp { getctag: Ctag }` (line 159). -/
structure CtagProp where
  getctag : Ctag
deriving Repr, DecidableEq

-- Deserializers, one per struct, mirroring the serde-derive expansion.

/-- Deserialize `Href`: its one field is the `$value` text content. -/
def deHref (x : Xml) : Except String Href :=
  .ok ⟨textValue x.childrenOf⟩

/-- Deserialize `Status`: its one field is the `$value` text content. -/
def deStatus (x : Xml) : Except String Status :=
  .ok ⟨textValue x.childrenOf⟩

/-- Deserialize `Ctag`: its one field is the `$value` text content. -/
def deCtag (x : Xml) : Except String Ctag :=
  .ok ⟨textValue x.childrenOf⟩

/-- Deserialize `Etag`: its one field is the `$value` text content. -/
def deEtag (x : Xml) : Except String Etag :=
  .ok ⟨textValue x.childrenOf⟩

/-- Deserialize `LastModified`: the `$value` text goes through
`date_parser::deserialize` (line 88), i.e. `DateTime::parse_from_rfc2822`
with a parse failure mapped to a hard deserialization error.  The rfc2822
parser itself is the external chrono library, so it is a parameter
`pd : String → Option Int` of the embedding. -/
def deLastModified (pd : String → Option Int) (x : Xml) :
    Except String LastModified :=
  match pd (textValue x.childrenOf) with
  | some t => .ok ⟨t⟩
  | none => .error "cannot parse rfc2822 date"

/-- Deserialize `CurrentUserPrincipal`: required field `href`. -/
def deCurrentUserPrincipal (x : Xml) : Except String CurrentUserPrincipal :=
  match findElem "href" x.childrenOf with
  | some h => (deHref h).map CurrentUserPrincipal.mk
  | none => .error "missing field href"

/-- Deserialize `CurrentUserPrincipalProp`: required field
`current-user-principal` (kebab-case rename). -/
def deCurrentUserPrincipalProp (x : Xml) :
    Except String CurrentUserPrincipalProp :=
  match findElem "current-user-principal" x.childrenOf with
  | some c => (deCurrentUserPrincipal c).map CurrentUserPrincipalProp.mk
  | none => .error "missing field current-user-principal"

/-- Deserialize `AddressbookHomeSet`: required field `href`. -/
def deAddressbookHomeSet (x : Xml) : Except String AddressbookHomeSet :=
  match findElem "href" x.childrenOf with
  | some h => (deHref h).map AddressbookHomeSet.mk
  | none => .error "missing field href"

/-- Deserialize `AddressbookHomeSetProp`: required field
`addressbook-home-set` (kebab-case rename). -/
def deAddressbookHomeSetProp (x : Xml) : Except String AddressbookHomeSetProp :=
  match findElem "addressbook-home-set" x.childrenOf with
  | some c => (deAddressbookHomeSet c).map AddressbookHomeSetProp.mk
  | none => .error "missing field addressbook-home-set"

/-- Deserialize the empty marker struct `Addressbook`. -/
def deAddressbook (_x : Xml) : Except String Addressbook :=
  .ok ⟨⟩

/-- Deserialize `AddressbookResourceType`: the `addressbook` field is an
`Option`, so an absent marker child becomes `none`, not an error. -/
def deAddressbookResourceType (x : Xml) :
    Except String AddressbookResourceType :=
  match findElem "addressbook" x.childrenOf with
  | some a => (deAddressbook a).map fun ab => ⟨some ab⟩
  | none => .ok ⟨none⟩

/-- Deserialize `AddressbookProp`: required field `resourcetype`. -/
def deAddressbookProp (x : Xml) : Except String AddressbookProp :=
  match findElem "resourcetype" x.childrenOf with
  | some r => (deAddressbookResourceType r).map AddressbookProp.mk
  | none => .error "missing field resourcetype"

/-- Deserialize `AddressData`: its one field is the `$value` text content. -/
def deAddressData (x : Xml) : Except String AddressData :=
  .ok ⟨textValue x.childrenOf⟩

/-- Deserialize `AddressDataProp`: required fields `address-data`,
`getetag`, `getlastmodified`. -/
def deAddressDataProp (pd : String → Option Int) (x : Xml) :
    Except String AddressDataProp := do
  let ad ← match findElem "address-data" x.childrenOf with
    | some a => deAddressData a
    | none => Except.error "missing field address-data"
  let et ← match findElem "getetag" x.childrenOf with
    | some e => deEtag e
    | none => Except.error "missing field getetag"
  let lm ← match findElem "getlastmodified" x.childrenOf with
    | some l => deLastModified pd l
    | none => Except.error "missing field getlastmodified"
  Except.ok ⟨ad, et, lm⟩

/-- Deserialize `CtagProp`: required field `getctag`. -/
def deCtagProp (x : Xml) : Except String CtagProp :=
  match findElem "getctag" x.childrenOf with
  | some c => (deCtag c).map CtagProp.mk
  | none => .error "missing field getctag"

/-- Deserialize `Propstat<T>`: required field `prop` (deserialized by the
payload deserializer `deP`), optional field `status`. -/
def dePropstat {T : Type} (deP : Xml → Except String T) (x : Xml) :
    Except String (Propstat T) := do
  let p ← match findElem "prop" x.childrenOf with
    | some pr => deP pr
    | none => Except.error "missing field prop"
  let st ← match findElem "status" x.childrenOf with
    | some s => (deStatus s).map some
    | none => Except.ok (none : Option Status)
  Except.ok ⟨p, st⟩

/-- Deserialize `Response<T>`: required fields `href` and `propstat`. -/
def deResponse {T : Type} (deP : Xml → Except String T) (x : Xml) :
    Except String (Response T) := do
  let h ← match findElem "href" x.childrenOf with
    | some hr => deHref hr
    | none => Except.error "missing field href"
  let ps ← match findElem "propstat" x.childrenOf with
    | some p => dePropstat deP p
    | none => Except.error "missing field propstat"
  Except.ok ⟨h, ps⟩

/-- Deserialize `Multistatus<T>`: the `responses` field is a `Vec` renamed
to element name "response", collecting every `response` child in order;
any child failing to deserialize fails the whole parse.  The field carries
no serde default attribute, so a body in which no `response` child occurs
at all is resolved through serde's missing_field, a hard error for a
non-Option field. -/
def deMultistatus {T : Type} (deP : Xml → Except String T) (x : Xml) :
    Except String (Multistatus T) :=
  match x.childrenOf.filter (Xml.isElemNamed "response") with
  | [] => .error "missing field response"
  | rs => (rs.mapM (deResponse deP)).map Multistatus.mk

-- The HTTP requests built by the three discovery steps.

/-- The request a discovery step hands to the HTTP client: custom method,
target URL, basic-auth credentials, optional body.  Sending it and reading
the response text are the external transport. -/
structure Request where
  method : String
  url : String
  basic_auth : Option (String × Option String)
  body : Option String
deriving Repr, DecidableEq

/-- The XML template of `fetch_current_user_principal_url` (lines 183-189). -/
def current_user_principal_body : String :=
  "\n            <D:propfind xmlns:D=\"DAV:\">\n                <D:prop>\n                    <D:current-user-principal />\n                </D:prop>\n            </D:propfind>\n            "

/-- The XML template of `fetch_addressbook_home_set_url` (lines 224-230). -/
def addressbook_home_set_body : String :=
  "\n            <D:propfind xmlns:D=\"DAV:\" xmlns:C=\"urn:ietf:params:xml:ns:carddav\">\n                <D:prop>\n                    <C:addressbook-home-set />\n                </D:prop>\n            </D:propfind>\n            "

/-- The request built by `fetch_current_user_principal_url` (lines 179-191):
PROPFIND against `format!("\x7b\x7d\x7b\x7d", host, path)`, basic auth
("user", Some("")), body the current-user-principal template. -/
def fetch_current_user_principal_request (host path : String) : Request :=
  { method := "PROPFIND", url := host ++ path,
    basic_auth := some ("user", some ""),
    body := some current_user_principal_body }

/-- The request built by `fetch_addressbook_home_set_url` (lines 220-232):
PROPFIND against host ++ path, basic auth ("user", Some("")), body the
addressbook-home-set template. -/
def fetch_addressbook_home_set_request (host path : String) : Request :=
  { method := "PROPFIND", url := host ++ path,
    basic_auth := some ("user", some ""),
    body := some addressbook_home_set_body }

/-- The request built by `fetch_addressbook_url` (lines 250-253):
PROPFIND against `host` (the `path` argument is not part of the URL),
basic auth ("user", Some("")), and no `.body(..)` call at all. -/
def fetch_addressbook_request (host _path : String) : Request :=
  { method := "PROPFIND", url := host,
    basic_auth := some ("user", some ""),
    body := none }

-- Resolution of the parsed multistatus values (the pure tail of each
-- fetch function, after transport and parsing).

/-- Lines 201-212: first entry's current-user-principal href if any entry
exists, else the input path. -/
def resolve_current_user_principal (ms : Multistatus CurrentUserPrincipalProp)
    (path : String) : String :=
  (ms.responses.head?.map fun r =>
    r.propstat.prop.current_user_principal.href.value).getD path

/-- Lines 242-246: first entry's addressbook-home-set href if any entry
exists, else the input path. -/
def resolve_addressbook_home_set (ms : Multistatus AddressbookHomeSetProp)
    (path : String) : String :=
  (ms.responses.head?.map fun r =>
    r.propstat.prop.addressbook_home_set.href.value).getD path

/-- Rust std `str::ends_with` (external library code): true exactly when
`suffix` is a character-for-character suffix of `s`, case- and
whitespace-sensitive. -/
def ends_with (s suffix : String) : Bool :=
  suffix.data.isSuffixOf s.data

/-- The predicate of the `find` on lines 266-282: status present and ending
with "200 OK", and the addressbook marker present in the resourcetype. -/
def addressbook_entry_matches (r : Response AddressbookProp) : Bool :=
  ((r.propstat.status.map fun s => ends_with s.value "200 OK").getD false)
    && r.propstat.prop.resourcetype.addressbook.isSome

/-- Lines 263-284: href of the first entry matching
`addressbook_entry_matches`, else the input path. -/
def resolve_addressbook (ms : Multistatus AddressbookProp)
    (path : String) : String :=
  ((ms.responses.find? addressbook_entry_matches).map fun r =>
    r.href.value).getD path

-- The pure pipeline of each fetch function on a response body: parse the
-- multistatus, then resolve (transport errors are upstream of this).

/-- `fetch_current_user_principal_url` from the response body on:
parse (line 198, hard error on failure) then resolve (lines 201-212). -/
def fetch_current_user_principal_of_body (path : String) (body : Xml) :
    Except String String :=
  (deMultistatus deCurrentUserPrincipalProp body).map fun ms =>
    resolve_current_user_principal ms path

/-- `fetch_addressbook_home_set_url` from the response body on:
parse (line 239, hard error on failure) then resolve (lines 242-246). -/
def fetch_addressbook_home_set_of_body (path : String) (body : Xml) :
    Except String String :=
  (deMultistatus deAddressbookHomeSetProp body).map fun ms =>
    resolve_addressbook_home_set ms path

/-- `fetch_addressbook_url` from the response body on:
parse (line 260, hard error on failure) then resolve (lines 263-284). -/
def fetch_addressbook_of_body (path : String) (body : Xml) :
    Except String String :=
  (deMultistatus deAddressbookProp body).map fun ms =>
    resolve_addressbook ms path

/-- The whole record-data fetch on a response body: parse into
`Multistatus<AddressDataProp>`; any entry whose date fails to parse fails
the whole parse. -/
def fetch_address_data_of_body (pd : String → Option Int) (body : Xml) :
    Except String (Multistatus AddressDataProp) :=
  deMultistatus (deAddressDataProp pd) body

-- The CRUD facade and the change-tag fetch.

/-- Rust `Card` domain entity: identified by a caller-assigned string id,
other attributes opaque to this core. -/
structure Card where
  id : String
deriving Repr, DecidableEq

/-- Outcome of a Rust `Result`-returning operation that can also panic:
`ok` and `err` are the values a caller can receive; `panicked` models a
`todo!()` unwinding, which never hands the caller a `Result`. -/
inductive CrudResult (α : Type) where
  | ok (value : α)
  | err (error : String)
  | panicked (message : String)
deriving Repr, DecidableEq

/-- `RemoteCardRepository::create` (lines 13-15): body is `todo!()`. -/
def RemoteCardRepository.create (_card : Card) : CrudResult Unit :=
  .panicked "not yet implemented"

/-- `RemoteCardRepository::read` (lines 17-19): body is `todo!()`. -/
def RemoteCardRepository.read (_id : String) : CrudResult Card :=
  .panicked "not yet implemented"

/-- `RemoteCardRepository::read_all` (lines 21-23): body is `todo!()`. -/
def RemoteCardRepository.read_all : CrudResult (List Card) :=
  .panicked "not yet implemented"

/-- `RemoteCardRepository::update` (lines 25-27): body is `todo!()`. -/
def RemoteCardRepository.update (_card : Card) : CrudResult Unit :=
  .panicked "not yet implemented"

/-- `RemoteCardRepository::delete` (lines 29-31): body is `todo!()`. -/
def RemoteCardRepository.delete (_id : String) : CrudResult Unit :=
  .panicked "not yet implemented"

/-- Modelled from the spec: the operation `fetchChangeTag` is absent from
src (only its payload struct `CtagProp` is declared there), so its body
follows the spec's words: "single property-fetch for the collection's
change tag; returns the first entry's tag value; error if the response has
zero entries".  Parsing and transport being upstream, it maps a parsed
`Multistatus<CtagProp>` to the tag. -/
def fetchChangeTag (ms : Multistatus CtagProp) : Except String String :=
  match ms.responses.head? with
  | some r => .ok r.propstat.prop.getctag.value
  | none => .error "missing ctag in response"

-- Theorems settling the claims.

/-- C1 counterexample: at host "https://dav.example.com" and input path
"/principals/alice/", the third discovery step's request URL is not the
host concatenated with the input path (the source passes `host` alone to
`client.request`, line 251). -/
theorem c1_counterexample :
    (fetch_addressbook_request "https://dav.example.com"
      "/principals/alice/").url ≠
      "https://dav.example.com" ++ "/principals/alice/" := by
  decide

/-- C1 amended: the first two discovery steps target host ++ path, but the
third step (fetch_addressbook_url) targets the host alone; the input path
is not part of its request URL (it is only the fallback return value). -/
theorem c1_amended_third_step_targets_host_alone (host path : String) :
    (fetch_current_user_principal_request host path).url = host ++ path ∧
    (fetch_addressbook_home_set_request host path).url = host ++ path ∧
    (fetch_addressbook_request host path).url = host :=
  ⟨rfl, rfl, rfl⟩

/-- C7 counterexample: at host "https://dav.example.com" and path "/", the
request built by the third discovery step carries no body at all (the
source never calls `.body(..)` in `fetch_addressbook_url`, lines 250-253),
so in particular no body declaring interest in the resource-type
property. -/
theorem c7_counterexample :
    (fetch_addressbook_request "https://dav.example.com" "/").body = none :=
  rfl

/-- C7 amended: for every host, path and client, the request issued by the
third discovery step carries no body (it does not declare interest in any
property, resource-type included). -/
theorem c7_amended_no_body (host path : String) :
    (fetch_addressbook_request host path).body = none :=
  rfl

/-- C9: discovery steps 1 and 2 never inspect the per-entry status: for
every parsed multistatus with at least one entry, the resolved path equals
the first entry's property href, whatever that entry's status field holds
(absent or any string, e.g. "HTTP/1.1 404 Not Found"). -/
theorem c9_steps_one_two_ignore_status (path : String)
    (r : Response CurrentUserPrincipalProp)
    (rest : List (Response CurrentUserPrincipalProp))
    (r2 : Response AddressbookHomeSetProp)
    (rest2 : List (Response AddressbookHomeSetProp)) :
    resolve_current_user_principal ⟨r :: rest⟩ path =
      r.propstat.prop.current_user_principal.href.value ∧
    resolve_addressbook_home_set ⟨r2 :: rest2⟩ path =
      r2.propstat.prop.addressbook_home_set.href.value :=
  ⟨rfl, rfl⟩

/-- C10: each of the five CRUD facade operations is unbuilt: on every
input it panics with "not yet implemented" and therefore never returns a
success (`ok`) or typed-failure (`err`) result. -/
theorem c10_crud_facade_unbuilt (card : Card) (id : String) :
    RemoteCardRepository.create card = .panicked "not yet implemented" ∧
    RemoteCardRepository.read id = .panicked "not yet implemented" ∧
    RemoteCardRepository.read_all = .panicked "not yet implemented" ∧
    RemoteCardRepository.update card = .panicked "not yet implemented" ∧
    RemoteCardRepository.delete id = .panicked "not yet implemented" ∧
    (∀ u, RemoteCardRepository.create card ≠ .ok u) ∧
    (∀ e, RemoteCardRepository.create card ≠ .err e) ∧
    (∀ c, RemoteCardRepository.read id ≠ .ok c) ∧
    (∀ e, RemoteCardRepository.read id ≠ .err e) ∧
    (∀ cs, RemoteCardRepository.read_all ≠ .ok cs) ∧
    (∀ e, RemoteCardRepository.read_all ≠ .err e) ∧
    (∀ u, RemoteCardRepository.update card ≠ .ok u) ∧
    (∀ e, RemoteCardRepository.update card ≠ .err e) ∧
    (∀ u, RemoteCardRepository.delete id ≠ .ok u) ∧
    (∀ e, RemoteCardRepository.delete id ≠ .err e) := by
  refine ⟨rfl, rfl, rfl, rfl, rfl, ?_, ?_, ?_, ?_, ?_, ?_, ?_, ?_, ?_, ?_⟩ <;>
    intro x h <;> cases h

/-- C8: the change-tag fetch returns the first entry's tag value, and a
response with zero entries is a hard error, not a fallback value. -/
theorem c8_fetchChangeTag_contract (ms : Multistatus CtagProp) :
    (ms.responses = [] →
      fetchChangeTag ms = .error "missing ctag in response") ∧
    (∀ r rest, ms.responses = r :: rest →
      fetchChangeTag ms = .ok r.propstat.prop.getctag.value) := by
  constructor
  · intro h
    simp [fetchChangeTag, h]
  · intro r rest h
    simp [fetchChangeTag, h]

/-- C8 witness: on the empty response the fetch errors, and on a one-entry
response carrying ctag "abc123" it returns "abc123". -/
theorem c8_fetchChangeTag_contract_witness :
    fetchChangeTag ⟨[]⟩ = .error "missing ctag in response" ∧
    fetchChangeTag
      ⟨[⟨⟨"/addressbooks/alice/contacts/"⟩,
        ⟨⟨⟨"abc123"⟩⟩, some ⟨"HTTP/1.1 200 OK"⟩⟩⟩]⟩ = .ok "abc123" :=
  ⟨(c8_fetchChangeTag_contract ⟨[]⟩).1 rfl,
   (c8_fetchChangeTag_contract _).2 _ _ rfl⟩

/-- C5 counterexample: a well-formed multistatus body with zero response
elements fails to parse under the current-user-principal payload shape
with a missing-field error, rather than succeed with an empty entry
sequence as the claim states. -/
theorem c5_counterexample :
    deMultistatus deCurrentUserPrincipalProp (Xml.elem "multistatus" []) =
      Except.error "missing field response" :=
  rfl

/-- C5 amended: every body with zero `response` children fails to parse,
for each of the five property-payload shapes, with a hard missing-field
error: the responses Vec carries no serde default attribute, so its
complete absence is an error, not an empty entry sequence. -/
theorem c5_zero_responses_missing_field_error (x : Xml)
    (pd : String → Option Int)
    (h : x.childrenOf.filter (Xml.isElemNamed "response") = []) :
    deMultistatus deCurrentUserPrincipalProp x =
      .error "missing field response" ∧
    deMultistatus deAddressbookHomeSetProp x =
      .error "missing field response" ∧
    deMultistatus deAddressbookProp x = .error "missing field response" ∧
    deMultistatus (deAddressDataProp pd) x =
      .error "missing field response" ∧
    deMultistatus deCtagProp x = .error "missing field response" := by
  have e1 : ∀ {T : Type} (deP : Xml → Except String T),
      deMultistatus deP x = .error "missing field response" := by
    intro T deP
    unfold deMultistatus
    rw [h]
  exact ⟨e1 _, e1 _, e1 _, e1 _, e1 _⟩

/-- C5 amended witness: an empty multistatus element fails to parse with
the missing-field error under all five payload shapes. -/
theorem c5_zero_responses_missing_field_error_witness :
    deMultistatus deCurrentUserPrincipalProp (Xml.elem "multistatus" []) =
      .error "missing field response" ∧
    deMultistatus deAddressbookHomeSetProp (Xml.elem "multistatus" []) =
      .error "missing field response" ∧
    deMultistatus deAddressbookProp (Xml.elem "multistatus" []) =
      .error "missing field response" ∧
    deMultistatus (deAddressDataProp fun _ => none)
      (Xml.elem "multistatus" []) = .error "missing field response" ∧
    deMultistatus deCtagProp (Xml.elem "multistatus" []) =
      .error "missing field response" :=
  c5_zero_responses_missing_field_error (Xml.elem "multistatus" [])
    (fun _ => none) rfl

/-- C3: discovery step 3 is first-match-wins: whenever the entry list
splits as pre ++ r :: post with no entry of pre matching and r matching
(status ending in "200 OK" and addressbook marker present), the resolved
path is r's href — whatever later entries of post contain, matching ones
included. -/
theorem c3_first_match_wins (path : String)
    (pre post : List (Response AddressbookProp))
    (r : Response AddressbookProp)
    (hpre : ∀ x ∈ pre, addressbook_entry_matches x = false)
    (hr : addressbook_entry_matches r = true) :
    resolve_addressbook ⟨pre ++ r :: post⟩ path = r.href.value := by
  unfold resolve_addressbook
  have hfind : (pre ++ r :: post).find? addressbook_entry_matches = some r := by
    induction pre with
    | nil => simp [List.find?_cons_of_pos, hr]
    | cons a as ih =>
      have ha : addressbook_entry_matches a = false := hpre a (by simp)
      have hrec := ih fun x hx => hpre x (by simp [hx])
      simpa [List.find?_cons_of_neg, ha] using hrec
  simp [hfind]

/-- C3 witness: with a non-matching 404-with-marker entry first, then a
matching entry for "/addressbooks/alice/contacts/", then a second matching
entry, step 3 resolves to the first matching entry's href. -/
theorem c3_first_match_wins_witness :
    resolve_addressbook
      ⟨[⟨⟨"/addressbooks/alice/"⟩,
          ⟨⟨⟨some ⟨⟩⟩⟩, some ⟨"HTTP/1.1 404 Not Found"⟩⟩⟩,
        ⟨⟨"/addressbooks/alice/contacts/"⟩,
          ⟨⟨⟨some ⟨⟩⟩⟩, some ⟨"HTTP/1.1 200 OK"⟩⟩⟩,
        ⟨⟨"/addressbooks/alice/work/"⟩,
          ⟨⟨⟨some ⟨⟩⟩⟩, some ⟨"HTTP/1.1 200 OK"⟩⟩⟩]⟩ "/" =
      "/addressbooks/alice/contacts/" :=
  c3_first_match_wins "/"
    [⟨⟨"/addressbooks/alice/"⟩,
       ⟨⟨⟨some ⟨⟩⟩⟩, some ⟨"HTTP/1.1 404 Not Found"⟩⟩⟩]
    [⟨⟨"/addressbooks/alice/work/"⟩,
       ⟨⟨⟨some ⟨⟩⟩⟩, some ⟨"HTTP/1.1 200 OK"⟩⟩⟩]
    ⟨⟨"/addressbooks/alice/contacts/"⟩,
      ⟨⟨⟨some ⟨⟩⟩⟩, some ⟨"HTTP/1.1 200 OK"⟩⟩⟩
    (by decide) (by decide)

/-- C4: when no entry satisfies both conditions of step 3 (success status
suffix and marker), the resolved path is the input path. -/
theorem c4_no_match_falls_back (path : String)
    (ms : Multistatus AddressbookProp)
    (h : ∀ r ∈ ms.responses, addressbook_entry_matches r = false) :
    resolve_addressbook ms path = path := by
  unfold resolve_addressbook
  have hfind : ms.responses.find? addressbook_entry_matches = none := by
    rw [List.find?_eq_none]
    intro x hx
    simp [h x hx]
  simp [hfind]

/-- C4 witness: one entry with status "HTTP/1.1 404 Not Found" and the
marker present, another with status "HTTP/1.1 200 OK" and no marker:
neither matches both conditions, so step 3 falls back to the input
path. -/
theorem c4_no_match_falls_back_witness :
    resolve_addressbook
      ⟨[⟨⟨"/addressbooks/alice/old/"⟩,
          ⟨⟨⟨some ⟨⟩⟩⟩, some ⟨"HTTP/1.1 404 Not Found"⟩⟩⟩,
        ⟨⟨"/addressbooks/alice/misc/"⟩,
          ⟨⟨⟨none⟩⟩, some ⟨"HTTP/1.1 200 OK"⟩⟩⟩]⟩
      "/initial/" = "/initial/" :=
  c4_no_match_falls_back "/initial/"
    ⟨[⟨⟨"/addressbooks/alice/old/"⟩,
        ⟨⟨⟨some ⟨⟩⟩⟩, some ⟨"HTTP/1.1 404 Not Found"⟩⟩⟩,
      ⟨⟨"/addressbooks/alice/misc/"⟩,
        ⟨⟨⟨none⟩⟩, some ⟨"HTTP/1.1 200 OK"⟩⟩⟩]⟩
    (by decide)

/-- C2 counterexample: a well-formed multistatus whose single entry lacks
the current-user-principal property sub-element makes discovery step 1
fail with a missing-field parse error, rather than succeed with the input
path "/initial/" as the claim states. -/
theorem c2_counterexample :
    fetch_current_user_principal_of_body "/initial/"
      (Xml.elem "multistatus" [Xml.elem "response"
        [Xml.elem "href" [Xml.text "/principals/alice/"],
         Xml.elem "propstat" [Xml.elem "prop" []]]]) =
      Except.error "missing field current-user-principal" := by
  rfl

/-- C2 amended: for discovery steps 1 and 2, a well-formed single-entry
multistatus whose entry lacks the requested property sub-element does not
soft-fall-back to the input path: the operation fails with a hard
missing-field parse error. -/
theorem c2_missing_property_is_hard_error (path hrefText : String)
    (pcs : List Xml)
    (h1 : findElem "current-user-principal" pcs = none)
    (h2 : findElem "addressbook-home-set" pcs = none) :
    fetch_current_user_principal_of_body path
      (Xml.elem "multistatus" [Xml.elem "response"
        [Xml.elem "href" [Xml.text hrefText],
         Xml.elem "propstat" [Xml.elem "prop" pcs]]]) =
      .error "missing field current-user-principal" ∧
    fetch_addressbook_home_set_of_body path
      (Xml.elem "multistatus" [Xml.elem "response"
        [Xml.elem "href" [Xml.text hrefText],
         Xml.elem "propstat" [Xml.elem "prop" pcs]]]) =
      .error "missing field addressbook-home-set" := by
  have hprop1 : deCurrentUserPrincipalProp (Xml.elem "prop" pcs) =
      Except.error "missing field current-user-principal" := by
    unfold deCurrentUserPrincipalProp
    rw [show (Xml.elem "prop" pcs).childrenOf = pcs from rfl, h1]
  have hprop2 : deAddressbookHomeSetProp (Xml.elem "prop" pcs) =
      Except.error "missing field addressbook-home-set" := by
    unfold deAddressbookHomeSetProp
    rw [show (Xml.elem "prop" pcs).childrenOf = pcs from rfl, h2]
  constructor
  · unfold fetch_current_user_principal_of_body deMultistatus deResponse
      dePropstat
    simp [findElem, Xml.childrenOf, Xml.isElemNamed, List.find?, List.filter,
      List.mapM.loop, Except.map, hprop1]
    rfl
  · unfold fetch_addressbook_home_set_of_body deMultistatus deResponse
      dePropstat
    simp [findElem, Xml.childrenOf, Xml.isElemNamed, List.find?, List.filter,
      List.mapM.loop, Except.map, hprop2]
    rfl

/-- C2 amended witness: the single-entry body with an empty prop element
errors with the missing-field message for both discovery steps. -/
theorem c2_missing_property_is_hard_error_witness :
    fetch_current_user_principal_of_body "/initial/"
      (Xml.elem "multistatus" [Xml.elem "response"
        [Xml.elem "href" [Xml.text "/principals/alice/"],
         Xml.elem "propstat" [Xml.elem "prop" []]]]) =
      .error "missing field current-user-principal" ∧
    fetch_addressbook_home_set_of_body "/initial/"
      (Xml.elem "multistatus" [Xml.elem "response"
        [Xml.elem "href" [Xml.text "/principals/alice/"],
         Xml.elem "propstat" [Xml.elem "prop" []]]]) =
      .error "missing field addressbook-home-set" :=
  c2_missing_property_is_hard_error "/initial/" "/principals/alice/"
    [] rfl rfl

/-- If one element of the list maps to an error, the whole `mapM` over
`Except` is an error (the fetch has no per-entry recovery). -/
theorem mapM_except_error_of_mem {α β : Type} (f : α → Except String β)
    (l : List α) (a : α) (ha : a ∈ l) (e : String)
    (hf : f a = Except.error e) :
    ∃ e2, l.mapM f = Except.error e2 := by
  induction l with
  | nil => cases ha
  | cons b bs ih =>
    rw [List.mapM_cons]
    rcases List.mem_cons.mp ha with h | h
    · subst h
      exact ⟨e, by rw [hf]; rfl⟩
    · cases hfb : f b with
      | error e3 => exact ⟨e3, rfl⟩
      | ok v =>
        obtain ⟨e2, h2⟩ := ih h
        refine ⟨e2, ?_⟩
        show bs.mapM f >>= (fun xs => pure (v :: xs)) = Except.error e2
        rw [h2]
        rfl

/-- A record entry whose getlastmodified text the date parser rejects
never deserializes: `deAddressDataProp` is an error on it. -/
theorem deAddressDataProp_error_of_bad_date (pd : String → Option Int)
    (pr lm : Xml)
    (hlm : findElem "getlastmodified" pr.childrenOf = some lm)
    (hbad : pd (textValue lm.childrenOf) = none) :
    ∃ e, deAddressDataProp pd pr = Except.error e := by
  unfold deAddressDataProp deLastModified
  cases had : findElem "address-data" pr.childrenOf with
  | none => exact ⟨_, rfl⟩
  | some a =>
    cases het : findElem "getetag" pr.childrenOf with
    | none => exact ⟨_, rfl⟩
    | some et =>
      simp only [hlm, hbad]
      exact ⟨_, rfl⟩

/-- A response entry whose prop holds a getlastmodified the date parser
rejects fails to deserialize as a whole: `deResponse` is an error. -/
theorem deResponse_error_of_bad_date (pd : String → Option Int)
    (r ps pr lm : Xml)
    (hps : findElem "propstat" r.childrenOf = some ps)
    (hpr : findElem "prop" ps.childrenOf = some pr)
    (hlm : findElem "getlastmodified" pr.childrenOf = some lm)
    (hbad : pd (textValue lm.childrenOf) = none) :
    ∃ e, deResponse (deAddressDataProp pd) r = Except.error e := by
  obtain ⟨e, he⟩ := deAddressDataProp_error_of_bad_date pd pr lm hlm hbad
  unfold deResponse dePropstat
  cases hh : findElem "href" r.childrenOf with
  | none => exact ⟨_, rfl⟩
  | some h0 =>
    simp only [hps, hpr, he]
    exact ⟨_, rfl⟩

/-- C6: a record-data response in which some record's getlastmodified
value is rejected by the date parser fails the whole fetch as a hard
parse error: no default timestamp is substituted and the record is not
skipped, whatever the other entries hold. -/
theorem c6_invalid_date_fails_whole_fetch (pd : String → Option Int)
    (x r ps pr lm : Xml)
    (hr : r ∈ x.childrenOf.filter (Xml.isElemNamed "response"))
    (hps : findElem "propstat" r.childrenOf = some ps)
    (hpr : findElem "prop" ps.childrenOf = some pr)
    (hlm : findElem "getlastmodified" pr.childrenOf = some lm)
    (hbad : pd (textValue lm.childrenOf) = none) :
    ∃ e, fetch_address_data_of_body pd x = Except.error e := by
  obtain ⟨e, he⟩ := deResponse_error_of_bad_date pd r ps pr lm hps hpr hlm hbad
  obtain ⟨e2, h2⟩ := mapM_except_error_of_mem (deResponse (deAddressDataProp pd))
    _ r hr e he
  refine ⟨e2, ?_⟩
  unfold fetch_address_data_of_body deMultistatus
  cases hfl : x.childrenOf.filter (Xml.isElemNamed "response") with
  | nil =>
    rw [hfl] at hr
    cases hr
  | cons b bs =>
    rw [hfl] at h2
    show ((b :: bs).mapM (deResponse (deAddressDataProp pd))).map
      Multistatus.mk = Except.error e2
    rw [h2]
    rfl

/-- C6 witness: with a date parser rejecting "not a date", a one-record
response whose getlastmodified holds "not a date" makes the whole
record-data fetch error. -/
theorem c6_invalid_date_fails_whole_fetch_witness :
    ∃ e, fetch_address_data_of_body (fun _ => none)
      (Xml.elem "multistatus" [Xml.elem "response"
        [Xml.elem "href" [Xml.text "/addressbooks/alice/contacts/1.vcf"],
         Xml.elem "propstat"
           [Xml.elem "prop"
             [Xml.elem "address-data" [Xml.text "BEGIN:VCARD"],
              Xml.elem "getetag" [Xml.text "33441-34321"],
              Xml.elem "getlastmodified" [Xml.text "not a date"]],
            Xml.elem "status" [Xml.text "HTTP/1.1 200 OK"]]]]) =
      Except.error e :=
  c6_invalid_date_fails_whole_fetch (fun _ => none) _ _ _ _
    (Xml.elem "getlastmodified" [Xml.text "not a date"])
    (List.mem_singleton.mpr rfl) rfl rfl rfl rfl

/-- C10 witness: on concrete inputs every facade operation panics with
"not yet implemented", and in particular read of "card-1" is not the
success result holding that card. -/
theorem c10_crud_facade_unbuilt_witness :
    RemoteCardRepository.create ⟨"card-1"⟩ = .panicked "not yet implemented" ∧
    RemoteCardRepository.read "card-1" ≠ .ok ⟨"card-1"⟩ :=
  ⟨(c10_crud_facade_unbuilt ⟨"card-1"⟩ "card-1").1,
   (c10_crud_facade_unbuilt ⟨"card-1"⟩ "card-1").2.2.2.2.2.2.2.1 ⟨"card-1"⟩⟩
